import Mathlib

/-!
Verification of the VoiceApp desktop client's privileged main process
(`src/main.js`, with the bridge surface of `src/preload.js`).

The development shallowly embeds the state and operations of the main
process: the electron-store backed settings store, the global-hotkey
subsystem, the settings-window singleton, the connection-retry handler,
the manual update check, and the auto-updater initialization.  OS calls
whose outcome the program merely observes (hotkey registration, URL
loads, the update feed) are parametrized by explicit outcome values, so
every definition is executable and every run is a concrete trace.
-/

namespace VoiceApp

/-- Values storable in the settings store.  The store's JSON values are
restricted to the shapes the application actually reads and writes:
null, booleans, integers, strings, and the window-bounds record
(`main.js` persists `windowBounds` as a `width`/`height` object, modelled
by the dedicated `boundsV` constructor). -/
inductive SettingValue where
  | nullV
  | boolV (b : Bool)
  | numV (n : Int)
  | strV (s : String)
  | boundsV (width height : Int)
  deriving DecidableEq, Repr

/-- The persistent settings store: an electron-store instance constructed
with a fixed defaults record (`main.js` lines 43-51).  `data` holds the
written values (most recent write first); `defaults` is the construction
defaults record, consulted when no written value exists for a key. -/
structure ConfigStore where
  defaults : List (String × SettingValue)
  data : List (String × SettingValue)
  deriving DecidableEq, Repr

/-- The defaults record passed to `new Store({ defaults: ... })` in
`main.js` lines 43-51: only `windowBounds`, `micMuted`, `volume`,
`noiseGateEnabled` and `noiseGateThreshold` are seeded. -/
def storeDefaults : List (String × SettingValue) :=
  [("windowBounds", .boundsV 1200 800),
   ("micMuted", .boolV false),
   ("volume", .numV 100),
   ("noiseGateEnabled", .boolV true),
   ("noiseGateThreshold", .numV (-50))]

/-- `store.get(key)`: the written value if one exists, otherwise the
construction default for the key, otherwise `undefined` (here `none`). -/
def ConfigStore.get (st : ConfigStore) (key : String) : Option SettingValue :=
  match st.data.lookup key with
  | some v => some v
  | none => st.defaults.lookup key

/-- `store.set(key, value)`: stores the value verbatim under the key;
a later write for the same key shadows an earlier one. -/
def ConfigStore.set (st : ConfigStore) (key : String) (v : SettingValue) : ConfigStore :=
  { st with data := (key, v) :: st.data }

/-- Modelled from the spec: the developer-only clear-all operation
(`clearAll() -> ack`, "resets to defaults").  No caller exists under
`src/` — the developer-menu item that invoked it (documented in
`README.md` and `CHANGELOG.md`) is gone, since `createApplicationMenu`
in `main.js` sets the application menu to `null`.  Modelled as
electron-store's `clear`: every written value is deleted, and the
construction defaults remain readable. -/
def ConfigStore.clearAll (st : ConfigStore) : ConfigStore :=
  { st with data := [] }

/-- The store as constructed at startup, before any write. -/
def defaultStore : ConfigStore := ⟨storeDefaults, []⟩

/-- Modelled from the spec: the nine documented schema keys of section 3
(window bounds, display name, last room, mic-muted, volume, noise-gate
enabled, noise-gate threshold, active hotkey binding, selected
microphone), written as the key strings the source uses.  `lastRoom`
appears in the spec and in `README.md` only; no code under `src/`
touches it. -/
def documentedSchemaKeys : List String :=
  ["windowBounds", "displayName", "lastRoom", "micMuted", "volume",
   "noiseGateEnabled", "noiseGateThreshold", "hotkey", "selectedMicrophone"]

/-- The IPC handler for `settings:set` (`main.js` lines 405-409): stores
the value verbatim — no key whitelist, type check or range check — and
returns `true`. -/
def settingsSetHandler (st : ConfigStore) (key : String) (v : SettingValue) :
    Bool × ConfigStore :=
  (true, st.set key v)

/-- The IPC handler for `settings:get` (`main.js` lines 401-403). -/
def settingsGetHandler (st : ConfigStore) (key : String) : Option SettingValue :=
  st.get key

/-- Applies a sequence of writes to the store, in order. -/
def applyWrites (st : ConfigStore) (ws : List (String × SettingValue)) : ConfigStore :=
  ws.foldl (fun acc kv => acc.set kv.1 kv.2) st

/-- The IPC channels that `preload.js` (lines 9-43) lets the sandboxed
surface reach, via `invoke` or `send`.  With context isolation on and
node integration off, these are the surface's entire capability set. -/
def preloadChannels : List String :=
  ["app:getVersion", "window:minimize", "window:maximize", "window:close",
   "settings:get", "settings:set", "settings:getAll", "settings:open",
   "settings:close", "audio:getDevices", "hotkey:update", "microphone:update",
   "log"]

/-- Outcome of one `globalShortcut.register` call, chosen by the
environment: the OS accepts the accelerator (`register` returns `true`),
declines it (`register` returns `false`, e.g. the accelerator is taken
by another application), or the call throws (e.g. a malformed
accelerator string — the reason both hotkey functions of `main.js` are
wrapped in `try`/`catch`). -/
inductive RegOutcome where
  | ok
  | declined
  | thrown
  deriving DecidableEq, Repr

/-- An OS-level call made by the hotkey subsystem, recorded so that
sequencing ("unregister first, then register") is observable. -/
inductive OsCall where
  | unregister (accel : String)
  | register (accel : String)
  deriving DecidableEq, Repr

/-- Environment choice for one rebind request: the outcome of the
`register(newHotkey)` call, and the outcome of the rollback
`register(old)` call in case the first one is consulted. -/
structure HkEnv where
  newOutcome : RegOutcome
  oldOutcome : RegOutcome
  deriving DecidableEq, Repr

/-- State touched by the hotkey subsystem of `main.js`: the settings
store, the multiset of accelerators this application currently has
registered with the OS, and the module-level `currentHotkey` variable. -/
structure HotkeyState where
  store : ConfigStore
  osRegistered : List String
  currentHotkey : Option String
  deriving DecidableEq, Repr

/-- State at module initialization of `main.js`: store constructed,
nothing registered, `currentHotkey = null`. -/
def initialHotkeyState : HotkeyState := ⟨defaultStore, [], none⟩

/-- Result of one run of `updateGlobalHotkey`: the returned boolean, the
state afterwards, the OS calls made, and the trace of this application's
OS registration multiset after each OS call. -/
structure HotkeyStep where
  success : Bool
  state : HotkeyState
  calls : List OsCall
  trace : List (List String)
  deriving DecidableEq, Repr

/-- The default accelerator: `process.env.HOTKEY_TOGGLE_MUTE` falling
back to this literal (`main.js` line 23); modelled with the environment
variable absent. -/
def hotkeyToggleMute : String := "CommandOrControl+Shift+M"

/-- `updateGlobalHotkey(newHotkey)` of `main.js` lines 307-343.  If
`currentHotkey` is set, the old accelerator is unregistered first; then
`register(newHotkey)` is attempted.  On `true`: `currentHotkey` becomes
the new accelerator and the function returns `true`.  On `false`: a
rollback `register(currentHotkey)` is attempted (its result unchecked)
and the function returns `false`.  If a register call throws, the
`catch` returns `false` with no further action — in particular a throw
on `register(newHotkey)` skips the rollback entirely. -/
def updateGlobalHotkey (env : HkEnv) (newHotkey : String) (s : HotkeyState) : HotkeyStep :=
  match s.currentHotkey with
  | some old =>
    let os1 := s.osRegistered.erase old
    match env.newOutcome with
    | .ok =>
      ⟨true, { s with osRegistered := newHotkey :: os1, currentHotkey := some newHotkey },
        [.unregister old, .register newHotkey], [os1, newHotkey :: os1]⟩
    | .declined =>
      match env.oldOutcome with
      | .ok =>
        ⟨false, { s with osRegistered := old :: os1 },
          [.unregister old, .register newHotkey, .register old], [os1, os1, old :: os1]⟩
      | .declined =>
        ⟨false, { s with osRegistered := os1 },
          [.unregister old, .register newHotkey, .register old], [os1, os1, os1]⟩
      | .thrown =>
        ⟨false, { s with osRegistered := os1 },
          [.unregister old, .register newHotkey, .register old], [os1, os1, os1]⟩
    | .thrown =>
      ⟨false, { s with osRegistered := os1 },
        [.unregister old, .register newHotkey], [os1, os1]⟩
  | none =>
    match env.newOutcome with
    | .ok =>
      ⟨true, { s with osRegistered := newHotkey :: s.osRegistered, currentHotkey := some newHotkey },
        [.register newHotkey], [newHotkey :: s.osRegistered]⟩
    | _ =>
      ⟨false, s, [.register newHotkey], [s.osRegistered]⟩

/-- Shape of the structured result an `ipcMain.handle` handler returns
to the bridge: a success flag plus an optional error string. -/
structure IpcResult where
  success : Bool
  error : Option String
  deriving DecidableEq, Repr

/-- The IPC handler for `hotkey:update` (`main.js` lines 450-465): runs
`updateGlobalHotkey`; on success persists the new accelerator under the
`hotkey` key and reports success, otherwise reports failure with the
documented error string and leaves the store untouched. -/
def hotkeyUpdateHandler (env : HkEnv) (newHotkey : String) (s : HotkeyState) :
    IpcResult × HotkeyStep :=
  let step := updateGlobalHotkey env newHotkey s
  if step.success then
    (⟨true, none⟩,
      { step with state := { step.state with store := step.state.store.set "hotkey" (.strV newHotkey) } })
  else
    (⟨false, some "Failed to register hotkey"⟩, step)

/-- `registerGlobalHotkeys()` of `main.js` lines 283-305, run at startup:
reads the persisted `hotkey` value, falls back to the configured default
when absent or empty (JavaScript `savedHotkey || hotkeyToggleMute`; a
non-string stored value is out of scope of every claim and also falls
back here), sets `currentHotkey`, then attempts one OS registration.
The registration result is only logged; on decline or throw the state
keeps `currentHotkey` set with nothing registered.  Nothing is ever
written back to the store. -/
def registerGlobalHotkeys (outcome : RegOutcome) (s : HotkeyState) : HotkeyState :=
  let hk := match s.store.get "hotkey" with
    | some (.strV h) => if h = "" then hotkeyToggleMute else h
    | _ => hotkeyToggleMute
  match outcome with
  | .ok => { s with currentHotkey := some hk, osRegistered := hk :: s.osRegistered }
  | _ => { s with currentHotkey := some hk }

/-- The accelerator this application has registered with the OS, as an
optional value — meaningful in states where the registration multiset
has at most one element. -/
def registeredBinding (s : HotkeyState) : Option String :=
  match s.osRegistered with
  | [h] => some h
  | _ => none

/-- The consistency relation claimed between persistence and the OS: the
value persisted under the `hotkey` key equals the accelerator currently
registered with the OS. -/
def hotkeyConsistent (s : HotkeyState) : Prop :=
  s.store.get "hotkey" = (registeredBinding s).map SettingValue.strV

instance (s : HotkeyState) : Decidable (hotkeyConsistent s) :=
  inferInstanceAs (Decidable (s.store.get "hotkey" = (registeredBinding s).map SettingValue.strV))

/-- Checks that every OS-registration multiset in a trace has at most
one element. -/
def osTraceAtMostOne (tr : List (List String)) : Bool :=
  tr.all fun t => decide (t.length ≤ 1)

/-- A window handle owned by the main process: its identity and whether
the underlying OS window has been destroyed. -/
structure Window where
  id : Nat
  destroyed : Bool
  deriving DecidableEq, Repr

/-- A core-to-surface notification: target window and channel name. -/
structure Delivery where
  windowId : Nat
  channel : String
  deriving DecidableEq, Repr

/-- The callback installed by `registerGlobalHotkeys`/`updateGlobalHotkey`
(`main.js` lines 290-295 and 316-321), run when the registered
accelerator fires: if the `mainWindow` variable holds a window (whose
`webContents` is present for any live window), one `hotkey:toggle-mute`
message is sent to it; otherwise nothing happens — no queueing, no
error.  Returns the notifications delivered. -/
def hotkeyTriggerCallback (mainWindow : Option Window) : List Delivery :=
  match mainWindow with
  | some w => [⟨w.id, "hotkey:toggle-mute"⟩]
  | none => []

/-- The slice of window-manager state relevant to the settings-window
singleton: the module-level `settingsWindow` variable (by handle id) and
a supply of fresh handle ids. -/
structure WindowsState where
  settingsWindow : Option Nat
  nextId : Nat
  deriving DecidableEq, Repr

/-- Result of one `createSettingsWindow()` call: the handle returned,
whether a new window was constructed, whether an existing window was
focused, and the state afterwards. -/
structure SettingsWindowResult where
  window : Nat
  created : Bool
  focusedExisting : Bool
  state : WindowsState
  deriving DecidableEq, Repr

/-- `createSettingsWindow()` of `main.js` lines 229-275: if a settings
window already exists it is focused and returned unchanged; only
otherwise is a new `BrowserWindow` constructed and recorded. -/
def createSettingsWindow (s : WindowsState) : SettingsWindowResult :=
  match s.settingsWindow with
  | some w => ⟨w, false, true, s⟩
  | none => ⟨s.nextId, true, false, ⟨some s.nextId, s.nextId + 1⟩⟩

/-- The slice of state the `error:retry` handler touches: the
`mainWindow` variable and the captured `errorInfo` failure message. -/
structure ConnState where
  mainWindow : Option Window
  errorInfo : Option String
  deriving DecidableEq, Repr

/-- Result of one `error:retry` call: the structured result returned to
the bridge, the state afterwards, and whether a `loadURL` of the remote
origin was issued (its eventual outcome arrives asynchronously through
the load's own failure callback). -/
structure RetryOutcome where
  result : IpcResult
  state : ConnState
  loadAttempted : Bool
  deriving DecidableEq, Repr

/-- The IPC handler for `error:retry` (`main.js` lines 492-520): with
the main window absent or destroyed it fails immediately with the
documented `Window destroyed` error and touches nothing; otherwise it
issues the origin load, clears `errorInfo` (the load's `catch` runs
asynchronously, strictly after this clearing), and reports success. -/
def errorRetryHandler (s : ConnState) : RetryOutcome :=
  match s.mainWindow with
  | none => ⟨⟨false, some "Window destroyed"⟩, s, false⟩
  | some w =>
    if w.destroyed then ⟨⟨false, some "Window destroyed"⟩, s, false⟩
    else ⟨⟨true, none⟩, { s with errorInfo := none }, true⟩

/-- Result of the manual update check: the structured value the
`app:checkForUpdates` handler returns across the bridge. -/
structure UpdateCheckResult where
  success : Bool
  reason : Option String
  message : Option String
  deriving DecidableEq, Repr

/-- The IPC handler for `app:checkForUpdates` (`main.js` lines 359-379),
as a total function: with the feature flag off it returns the `disabled`
failure; in development it returns the `dev` failure; otherwise it runs
the underlying check, whose outcome (completion or thrown message) the
environment supplies, and converts a throw into the `error` failure.
The second component records whether the underlying check was run. -/
def checkForUpdatesHandler (autoUpdateEnabled isDev : Bool) (outcome : Except String Unit) :
    UpdateCheckResult × Bool :=
  if autoUpdateEnabled = false then (⟨false, some "disabled", none⟩, false)
  else if isDev then (⟨false, some "dev", none⟩, false)
  else
    match outcome with
    | .ok _ => (⟨true, none, none⟩, true)
    | .error msg => (⟨false, some "error", some msg⟩, true)

/-- Auto-updater state: the module-level `autoUpdaterInitialized` guard
and the event observers registered on the updater, by event name in
registration order. -/
structure UpdaterState where
  initialized : Bool
  observers : List String
  deriving DecidableEq, Repr

/-- The five updater events `initAutoUpdater` observes, in registration
order (`main.js` lines 113-131). -/
def updaterEventNames : List String :=
  ["checking-for-update", "update-available", "update-not-available",
   "update-downloaded", "error"]

/-- `initAutoUpdater()` of `main.js` lines 105-132: a no-op when already
initialized, otherwise sets the guard and registers the five event
observers. -/
def initAutoUpdater (s : UpdaterState) : UpdaterState :=
  if s.initialized then s
  else ⟨true, s.observers ++ updaterEventNames⟩

/-- One concrete rebind run exercising the throwing register path: the
active binding is the default accelerator (also persisted), the rebind
target's `register` call throws, and a rollback registration of the old
accelerator would have succeeded had it been attempted. -/
def hotkeyThrownRun : IpcResult × HotkeyStep :=
  hotkeyUpdateHandler ⟨.thrown, .ok⟩ "Ctrl+Shift+B"
    ⟨defaultStore.set "hotkey" (.strV hotkeyToggleMute), [hotkeyToggleMute],
     some hotkeyToggleMute⟩

lemma ConfigStore.get_set_self (st : ConfigStore) (k : String) (v : SettingValue) :
    (st.set k v).get k = some v := by
  simp [ConfigStore.get, ConfigStore.set, List.lookup]

lemma initAutoUpdater_idem (s : UpdaterState) :
    initAutoUpdater (initAutoUpdater s) = initAutoUpdater s := by
  by_cases h : s.initialized <;> simp [initAutoUpdater, h]

lemma applyWrites_defaults (st : ConfigStore) (ws : List (String × SettingValue)) :
    (applyWrites st ws).defaults = st.defaults := by
  induction ws generalizing st with
  | nil => rfl
  | cons kv ws ih => simpa [applyWrites, ConfigStore.set] using ih (st.set kv.1 kv.2)

/-- C1 (counterexample): the claim says every failing rebind attempts to
re-register the old binding, ending `Registered(old)` when that rollback
registration succeeds.  On the path where `register(newHotkey)` throws
(caught at `main.js` line 339), no rollback is attempted — the call list
stops after the register of the new accelerator — and the application
ends with nothing registered even though re-registering the old binding
would have succeeded. -/
theorem hotkeyRebindThrown_cex :
    hotkeyThrownRun.1.success = false ∧
    hotkeyThrownRun.2.calls = [.unregister hotkeyToggleMute, .register "Ctrl+Shift+B"] ∧
    OsCall.register hotkeyToggleMute ∉ hotkeyThrownRun.2.calls ∧
    hotkeyThrownRun.2.state.osRegistered = [] := by
  decide

/-- C1 (amended): for a rebind issued while `old` is the single active
binding, the handler always unregisters `old` first and then attempts to
register the new accelerator.  When the OS accepts: the binding becomes
the new accelerator, it is persisted, and success is reported.  When the
OS declines: the old binding is re-registered best-effort, failure is
reported, and the OS state is `[old]` exactly when the rollback
succeeds, empty otherwise.  When the register call throws: failure is
reported with no rollback and the OS state is empty.  In every case the
trace of this application's OS registration count stays at 0 or 1, never
reaching 2. -/
theorem hotkeyRebindProtocol :
    ∀ (cs : ConfigStore) (old new : String) (o : RegOutcome),
      hotkeyUpdateHandler ⟨.ok, o⟩ new ⟨cs, [old], some old⟩ =
        (⟨true, none⟩,
         ⟨true, ⟨cs.set "hotkey" (.strV new), [new], some new⟩,
          [.unregister old, .register new], [[], [new]]⟩) ∧
      hotkeyUpdateHandler ⟨.declined, .ok⟩ new ⟨cs, [old], some old⟩ =
        (⟨false, some "Failed to register hotkey"⟩,
         ⟨false, ⟨cs, [old], some old⟩,
          [.unregister old, .register new, .register old], [[], [], [old]]⟩) ∧
      hotkeyUpdateHandler ⟨.declined, .declined⟩ new ⟨cs, [old], some old⟩ =
        (⟨false, some "Failed to register hotkey"⟩,
         ⟨false, ⟨cs, [], some old⟩,
          [.unregister old, .register new, .register old], [[], [], []]⟩) ∧
      hotkeyUpdateHandler ⟨.declined, .thrown⟩ new ⟨cs, [old], some old⟩ =
        (⟨false, some "Failed to register hotkey"⟩,
         ⟨false, ⟨cs, [], some old⟩,
          [.unregister old, .register new, .register old], [[], [], []]⟩) ∧
      hotkeyUpdateHandler ⟨.thrown, o⟩ new ⟨cs, [old], some old⟩ =
        (⟨false, some "Failed to register hotkey"⟩,
         ⟨false, ⟨cs, [], some old⟩,
          [.unregister old, .register new], [[], []]⟩) ∧
      ∀ env : HkEnv,
        osTraceAtMostOne (hotkeyUpdateHandler env new ⟨cs, [old], some old⟩).2.trace = true := by
  intro cs old new o
  refine ⟨?_, ?_, ?_, ?_, ?_, ?_⟩
  · simp [hotkeyUpdateHandler, updateGlobalHotkey, List.erase_cons_head]
  · simp [hotkeyUpdateHandler, updateGlobalHotkey, List.erase_cons_head]
  · simp [hotkeyUpdateHandler, updateGlobalHotkey, List.erase_cons_head]
  · simp [hotkeyUpdateHandler, updateGlobalHotkey, List.erase_cons_head]
  · simp [hotkeyUpdateHandler, updateGlobalHotkey, List.erase_cons_head]
  · intro env
    obtain ⟨no, oo⟩ := env
    cases no <;> cases oo <;>
      simp [osTraceAtMostOne, hotkeyUpdateHandler, updateGlobalHotkey, List.erase_cons_head]

/-- C2 (counterexample): the claim says the persisted `hotkey` value
always equals the OS-registered accelerator between operations.  At
startup on a fresh store, `registerGlobalHotkeys` registers the
configured default but never persists it: after the startup operation
completes, the store reads `undefined` for `hotkey` while the default
accelerator is registered. -/
theorem hotkeyPersistStartup_cex :
    ¬ hotkeyConsistent (registerGlobalHotkeys .ok initialHotkeyState) ∧
    (registerGlobalHotkeys .ok initialHotkeyState).store.get "hotkey" = none ∧
    registeredBinding (registerGlobalHotkeys .ok initialHotkeyState) =
      some hotkeyToggleMute := by
  decide

/-- C2 (amended): once a binding `old` has been persisted and is the one
registered, the equality between the persisted value and the registered
accelerator is preserved by the `hotkey:update` bridge call — after a
successful call both are the new accelerator, and after a call that
reports failure with a successful rollback both are still `old`.  (The
equality does not hold unconditionally: it fails after a fresh-store
startup and after a failed rollback.) -/
theorem hotkeyPersistSync :
    ∀ (cs : ConfigStore) (old new : String) (o : RegOutcome),
      hotkeyConsistent ⟨cs.set "hotkey" (.strV old), [old], some old⟩ ∧
      hotkeyConsistent
        (hotkeyUpdateHandler ⟨.ok, o⟩ new
          ⟨cs.set "hotkey" (.strV old), [old], some old⟩).2.state ∧
      (hotkeyUpdateHandler ⟨.declined, .ok⟩ new
          ⟨cs.set "hotkey" (.strV old), [old], some old⟩).1.success = false ∧
      hotkeyConsistent
        (hotkeyUpdateHandler ⟨.declined, .ok⟩ new
          ⟨cs.set "hotkey" (.strV old), [old], some old⟩).2.state ∧
      (hotkeyUpdateHandler ⟨.declined, .ok⟩ new
          ⟨cs.set "hotkey" (.strV old), [old], some old⟩).2.state.store.get "hotkey" =
        some (.strV old) ∧
      registeredBinding
        (hotkeyUpdateHandler ⟨.declined, .ok⟩ new
          ⟨cs.set "hotkey" (.strV old), [old], some old⟩).2.state = some old := by
  intro cs old new o
  refine ⟨?_, ?_, ?_, ?_, ?_, ?_⟩ <;>
    simp [hotkeyConsistent, registeredBinding, hotkeyUpdateHandler, updateGlobalHotkey,
      ConfigStore.get_set_self, List.erase_cons_head]

/-- C3 (counterexample): the claim says every key of the documented
schema reads back a documented default on an untouched store, never an
undefined value; the active-hotkey key is in the schema and reads back
`undefined`. -/
theorem storeDefaults_cex :
    "hotkey" ∈ documentedSchemaKeys ∧ defaultStore.get "hotkey" = none := by
  decide

/-- C3 (amended): on an untouched store, the five keys seeded in the
store's construction defaults read back exactly those defaults, while
the remaining documented schema keys (display name, last room, active
hotkey binding, selected microphone) read back `undefined`; and for
every key and value, a set followed by a get of the same key returns
that value. -/
theorem storeSchemaDefaults :
    defaultStore.get "windowBounds" = some (.boundsV 1200 800) ∧
    defaultStore.get "micMuted" = some (.boolV false) ∧
    defaultStore.get "volume" = some (.numV 100) ∧
    defaultStore.get "noiseGateEnabled" = some (.boolV true) ∧
    defaultStore.get "noiseGateThreshold" = some (.numV (-50)) ∧
    defaultStore.get "displayName" = none ∧
    defaultStore.get "lastRoom" = none ∧
    defaultStore.get "hotkey" = none ∧
    defaultStore.get "selectedMicrophone" = none ∧
    ∀ (st : ConfigStore) (k : String) (v : SettingValue),
      (st.set k v).get k = some v := by
  refine ⟨by decide, by decide, by decide, by decide, by decide, by decide, by decide,
    by decide, by decide, ?_⟩
  intro st k v
  exact ConfigStore.get_set_self st k v

/-- C4 (counterexample): the claim says a clear-all followed by a get
returns the documented default for every schema key.  For the selected
microphone (documented default: empty string, meaning system default),
the store reads back `undefined` after a clear, because the key has no
construction default. -/
theorem clearAll_cex :
    "selectedMicrophone" ∈ documentedSchemaKeys ∧
    ((defaultStore.set "selectedMicrophone" (.strV "Blue Yeti")).clearAll).get
      "selectedMicrophone" = none ∧
    ((defaultStore.set "selectedMicrophone" (.strV "Blue Yeti")).clearAll).get
      "selectedMicrophone" ≠ some (.strV "") := by
  decide

/-- C4 (amended): the store-level clear-all, after any sequence of prior
writes, returns every key to exactly its untouched-store reading — the
construction default for the five seeded keys, `undefined` for every
other key — leaving no residual written value; and no channel of the
sandboxed surface's capability set is a store-clearing operation. -/
theorem clearAllRestoresDefaults :
    (∀ (ws : List (String × SettingValue)) (k : String),
       ((applyWrites defaultStore ws).clearAll).get k = defaultStore.get k) ∧
    "settings:clear" ∉ preloadChannels ∧ "settings:clearAll" ∉ preloadChannels := by
  refine ⟨?_, by decide, by decide⟩
  intro ws k
  simp [ConfigStore.clearAll, ConfigStore.get, applyWrites_defaults, defaultStore]

/-- C5: the manual update check handler is a total function of the
feature flag, the posture, and the underlying check's outcome — nothing
propagates across the bridge.  With the flag off it reports the
`disabled` failure without running a check; in development it reports
the `dev` failure without running a check; otherwise it reports success
when the underlying check completes and the `error` failure with the
thrown message when it throws. -/
theorem checkForUpdatesContract :
    (∀ (dev : Bool) (out : Except String Unit),
       checkForUpdatesHandler false dev out = (⟨false, some "disabled", none⟩, false)) ∧
    (∀ out : Except String Unit,
       checkForUpdatesHandler true true out = (⟨false, some "dev", none⟩, false)) ∧
    checkForUpdatesHandler true false (.ok ()) = (⟨true, none, none⟩, true) ∧
    (∀ msg : String,
       checkForUpdatesHandler true false (.error msg) =
         (⟨false, some "error", some msg⟩, true)) := by
  exact ⟨fun dev out => rfl, fun out => rfl, rfl, fun msg => rfl⟩

/-- C6: the settings window is a singleton — a request while a window
exists focuses and returns that window without creating anything or
changing state, and two consecutive requests from the no-window state
create exactly one window, the second request returning the handle the
first created. -/
theorem settingsWindowSingleton :
    (∀ (w n : Nat), createSettingsWindow ⟨some w, n⟩ = ⟨w, false, true, ⟨some w, n⟩⟩) ∧
    (∀ n : Nat,
       (createSettingsWindow ⟨none, n⟩).created = true ∧
       createSettingsWindow (createSettingsWindow ⟨none, n⟩).state =
         ⟨(createSettingsWindow ⟨none, n⟩).window, false, true,
          (createSettingsWindow ⟨none, n⟩).state⟩) := by
  exact ⟨fun w n => rfl, fun n => ⟨rfl, rfl⟩⟩

/-- C7: the retry handler fails immediately with the documented
`Window destroyed` error and changes nothing when the main window is
absent or destroyed; otherwise it issues the origin load, clears the
captured failure message, and reports success. -/
theorem errorRetryContract :
    (∀ e : Option String,
       errorRetryHandler ⟨none, e⟩ =
         ⟨⟨false, some "Window destroyed"⟩, ⟨none, e⟩, false⟩) ∧
    (∀ (i : Nat) (e : Option String),
       errorRetryHandler ⟨some ⟨i, true⟩, e⟩ =
         ⟨⟨false, some "Window destroyed"⟩, ⟨some ⟨i, true⟩, e⟩, false⟩) ∧
    (∀ (i : Nat) (e : Option String),
       errorRetryHandler ⟨some ⟨i, false⟩, e⟩ =
         ⟨⟨true, none⟩, ⟨some ⟨i, false⟩, none⟩, true⟩) := by
  exact ⟨fun e => rfl, fun i e => rfl, fun i e => rfl⟩

/-- C8: a hotkey trigger with a main window present delivers exactly one
`hotkey:toggle-mute` notification, addressed to that window; with no
main window, nothing at all is delivered — the event is dropped, with no
queue and no error. -/
theorem hotkeyTriggerDelivery :
    (∀ w : Window,
       hotkeyTriggerCallback (some w) = [⟨w.id, "hotkey:toggle-mute"⟩] ∧
       (hotkeyTriggerCallback (some w)).length = 1) ∧
    hotkeyTriggerCallback none = [] := by
  exact ⟨fun w => ⟨rfl, rfl⟩, rfl⟩

/-- C9: auto-updater initialization is idempotent — `n + 1` calls leave
the state (in particular, the registered observer list) exactly as one
call does, so second and later calls register no additional observers. -/
theorem initAutoUpdaterIdempotent :
    ∀ (s : UpdaterState) (n : Nat), initAutoUpdater^[n + 1] s = initAutoUpdater s := by
  intro s n
  induction n generalizing s with
  | zero => rfl
  | succ n ih => rw [Function.iterate_succ_apply, ih, initAutoUpdater_idem]

/-- C10: the `settings:set` bridge handler accepts every key string and
every value — no whitelist, type check, or range check — returning
`true` and persisting the value verbatim, so the subsequent get of the
key returns exactly that value. -/
theorem settingsSetVerbatim :
    ∀ (st : ConfigStore) (k : String) (v : SettingValue),
      (settingsSetHandler st k v).1 = true ∧
      (settingsSetHandler st k v).2 = st.set k v ∧
      (settingsSetHandler st k v).2.get k = some v := by
  intro st k v
  exact ⟨rfl, rfl, ConfigStore.get_set_self st k v⟩

end VoiceApp
